import Mathlib

/-!
Verification development for the remote-meeting speech-translation pipeline
(`scripts/frontend/tabs/remote_meeting.py`).

The shallow embedding translates the pure data flow of the source file:
the Azure event callbacks (`result_callback`, `canceled_callback`), the
exception path of `start_azure_recognition`, the audio worker loop
(`AzureAudioProcessor._process_audio`) and `AzureAudioProcessor.stop`, the
orchestrator logic of `render_remote_meeting` (lazy session start, result
queue drain, auto-refresh scheduling, CSV export).  Queues are embedded as
lists in FIFO order; threads and time are embedded as explicit fuel / flag
parameters.  The database layer (`scripts/backend/db.py`) is not part of
the sources, so the store is modelled from the spec where a claim needs it.
-/

/-! ## Data model -/

/-- An item placed on the `result_queue`: the dict
`{"original": …, "translated": …, "timestamp": time.strftime("%H:%M:%S")}`
built by the callbacks in `start_azure_recognition`. -/
structure TranslationEvent where
  original : String
  translated : String
  timestamp : String
deriving DecidableEq

/-- The reasons carried by an Azure recognition result that the source
inspects (`speechsdk.ResultReason`). -/
inductive ResultReason where
  | TranslatedSpeech
  | RecognizedSpeech
  | NoMatch
deriving DecidableEq

/-- The cancellation reasons the source inspects
(`speechsdk.CancellationReason`). -/
inductive CancellationReason where
  | Error
  | EndOfStream
deriving DecidableEq

/-- Embedding of `evt.result.translations.get(target_lang, "")`: the
translation map is an association list; a missing key yields `""`. -/
def lookupTranslation (translations : List (String × String)) (lang : String) : String :=
  match translations.find? (fun p => p.1 == lang) with
  | some p => p.2
  | none => ""

/-! ## RecognitionSession callbacks (lines 72-93) -/

/-- Embedding of `result_callback` (remote_meeting.py lines 72-83) acting on
the result queue: if the event reason is `TranslatedSpeech`, look up the
target-language translation with default `""`; enqueue
`{original, translated, timestamp}` only when both the original text and the
translation are non-empty (Python truthiness of strings). -/
def result_callback (reason : ResultReason) (text : String)
    (translations : List (String × String)) (target_lang : String)
    (now : String) (q : List TranslationEvent) : List TranslationEvent :=
  if reason = ResultReason.TranslatedSpeech then
    let trans := lookupTranslation translations target_lang
    if text ≠ "" ∧ trans ≠ "" then
      q ++ [⟨text, trans, now⟩]
    else q
  else q

/-- Embedding of `canceled_callback` (remote_meeting.py lines 85-93): when
the cancellation reason is `Error`, enqueue one synthesized event whose
original text is `"ERROR: "` followed by the error details. -/
def canceled_callback (reason : CancellationReason) (error_details : String)
    (now : String) (q : List TranslationEvent) : List TranslationEvent :=
  if reason = CancellationReason.Error then
    q ++ [⟨"ERROR: " ++ error_details,
           "Recognition failed. Check Azure credentials.", now⟩]
  else q

/-! ## start_azure_recognition exception path (lines 54-110) -/

/-- Embedding of the effect of `start_azure_recognition`'s own body on the
result queue (remote_meeting.py lines 54-110).  The `setup` argument is the
outcome of constructing the config/recognizer and starting recognition:
`Except.error e` models a raised exception with message `e`.  On success the
body parks in `while True: time.sleep(0.5)` and enqueues nothing itself
(events arrive only through the callbacks); on exception the handler at
lines 104-110 enqueues exactly one `EXCEPTION:` event. -/
def start_azure_recognition (setup : Except String Unit) (now : String)
    (q : List TranslationEvent) : List TranslationEvent :=
  match setup with
  | Except.ok _ => q
  | Except.error e =>
      q ++ [⟨"EXCEPTION: " ++ e,
             "Azure connection failed. Check credentials.", now⟩]

/-! ## AzureAudioProcessor: worker loop and stop (lines 13-52) -/

/-- A raw audio frame as the worker sees it.  `chunks` are the byte chunks
produced by `resampler.resample(frame)` and written to the Azure push stream
before any error; `fails` records whether processing this frame raises an
exception (caught and logged by the worker). -/
structure RawFrame where
  chunks : List (List Nat)
  fails : Bool
deriving DecidableEq

/-- Embedding of `AzureAudioProcessor._process_audio` (remote_meeting.py
lines 35-48).  The first argument is fuel: the number of times the loop
guard `while self.is_running` still evaluates to true before `stop()` is
observed.  Each true check dequeues one frame and writes its resampled
chunks (a timeout on an empty queue just continues); a frame whose
processing raises is logged (counted) and dropped, and the loop continues.
Returns (written chunks, number of logged per-frame errors, frames left in
the queue when the loop exits). -/
def process_audio : Nat → List RawFrame → List (List Nat) × Nat × List RawFrame
  | 0, q => ([], 0, q)
  | k + 1, [] => process_audio k []
  | k + 1, f :: rest =>
      let r := process_audio k rest
      (f.chunks ++ r.1, (if f.fails then 1 else 0) + r.2.1, r.2.2)

/-- State of an `AzureAudioProcessor` relevant to shutdown. -/
structure ProcessorState where
  is_running : Bool
  stream_closed : Bool
deriving DecidableEq

/-- Actions the orchestrator / processor can perform at the end of a render
cycle and during shutdown. -/
inductive OrchEndAction where
  | sleepOneSecond
  | rerun
  | closeRecognitionSession
  | closeStream
  | offerDownload
deriving DecidableEq

/-- Embedding of `AzureAudioProcessor.stop` (remote_meeting.py lines 50-52):
set `is_running` to false and close the push stream (the one place in the
source where the stream resource is released). -/
def AzureAudioProcessor.stop (s : ProcessorState) : ProcessorState × List OrchEndAction :=
  ({ s with is_running := false, stream_closed := true }, [OrchEndAction.closeStream])

/-- Embedding of the infinite park loop of `start_azure_recognition`
(remote_meeting.py lines 101-102): `while True: time.sleep(0.5)`.  The fuel
argument bounds how many iterations we observe; every iteration only
sleeps — no iteration ever closes the recognizer or the stream. -/
def recognitionThreadBody (fuel : Nat) : List OrchEndAction :=
  List.replicate fuel OrchEndAction.sleepOneSecond

/-- Embedding of the tail of `render_remote_meeting` after the transcript is
displayed (remote_meeting.py lines 254-289): if `ctx.state.playing`, sleep
one second and rerun; then, if there are messages, offer the CSV download.
No branch closes the recognition session. -/
def render_tail (playing : Bool) (has_messages : Bool) : List OrchEndAction :=
  (if playing then [OrchEndAction.sleepOneSecond, OrchEndAction.rerun] else [])
    ++ (if has_messages then [OrchEndAction.offerDownload] else [])

/-! ## Orchestrator: lazy session start (lines 175-191) -/

/-- The per-capture-context state the orchestrator reads and writes when it
considers starting the Azure thread: the `azure_thread_started` marker
attribute (`hasattr` is false until it is first set) and a count of how many
recognition-session threads were ever launched for this context. -/
structure OrchState where
  azure_thread_started : Bool
  sessions_started : Nat
deriving DecidableEq

/-- Actions performed by the session-start block, in source order. -/
inductive OrchAction where
  | setMarker
  | startSessionThread
deriving DecidableEq

/-- Embedding of the session-start block run on every poll cycle
(remote_meeting.py lines 175-191): if the marker attribute is absent, create
the result queue, set the marker, and only then start the background
recognition thread; otherwise do nothing.  Returns the new state and the
actions performed, in order. -/
def startCycle (s : OrchState) : OrchState × List OrchAction :=
  if s.azure_thread_started then (s, [])
  else ({ azure_thread_started := true, sessions_started := s.sessions_started + 1 },
        [OrchAction.setMarker, OrchAction.startSessionThread])

/-- K successive poll cycles against the same capture context. -/
def runCycles : Nat → OrchState → OrchState
  | 0, s => s
  | k + 1, s => runCycles k (startCycle s).1

/-- The orchestrator state of a fresh capture context: the marker attribute
does not exist yet and no session thread has been started. -/
def initState : OrchState := { azure_thread_started := false, sessions_started := 0 }

/-! ## Orchestrator: result-queue drain (lines 194-203) -/

/-- The argument tuple of one `db.add_message` call exactly as the source
passes it (remote_meeting.py lines 197-203): room, author, original,
translated, language — five fields, no timestamp argument. -/
structure AddMessageArgs where
  room : String
  author : String
  original : String
  translated : String
  lang : String
deriving DecidableEq

/-- Embedding of the drain loop (remote_meeting.py lines 194-203):
`while not result_queue.empty(): msg = result_queue.get();
db.add_message(room_id, username, msg['original'], msg['translated'],
source_lang_code)`.  Returns the `add_message` calls issued, in order, and
the queue contents when the loop exits. -/
def drainLoop (room username lang : String) :
    List TranslationEvent → List AddMessageArgs × List TranslationEvent
  | [] => ([], [])
  | m :: rest =>
      let r := drainLoop room username lang rest
      (⟨room, username, m.original, m.translated, lang⟩ :: r.1, r.2)

/-! ## Transcript store and CSV export (lines 206, 261-288) -/

/-- A persisted message as the display/export code unpacks it
(remote_meeting.py line 218: `user, original, translated, timestamp, lang`),
together with its room key. -/
structure StoredMsg where
  room : String
  user : String
  original : String
  translated : String
  timestamp : String
  lang : String
deriving DecidableEq

/-- Modelled from the spec: `DatabaseManager.get_messages`
(`scripts/backend/db.py`, not under the provided sources).  Per the spec,
`list(room)` returns the room's persisted messages oldest first, i.e. the
room's sub-sequence of the insertion-ordered store. -/
def get_messages (room : String) (db : List StoredMsg) : List StoredMsg :=
  db.filter (fun m => m.room == room)

/-- The CSV header row written at remote_meeting.py line 270. -/
def headerRow : List String :=
  ["User", "Original Text", "Translated Text", "Timestamp", "Language"]

/-- One exported row per message (remote_meeting.py lines 273-275). -/
def msgRow (m : StoredMsg) : List String :=
  [m.user, m.original, m.translated, m.timestamp, m.lang]

/-- Python `csv.writer` (default dialect, QUOTE_MINIMAL) quotes a field that
contains the delimiter, the quote char, or a line-terminator character. -/
def needsQuoting (s : String) : Bool :=
  s.contains ',' || s.contains '"' || s.contains '\r' || s.contains '\n'

/-- Quote a CSV field, doubling embedded quote characters. -/
def csvQuote (s : String) : String :=
  "\"" ++ s.replace "\"" "\"\"" ++ "\""

/-- Render one CSV field under QUOTE_MINIMAL. -/
def csvField (s : String) : String :=
  if needsQuoting s then csvQuote s else s

/-- Render one CSV row: comma-separated fields. -/
def renderRow (row : List String) : String :=
  String.intercalate "," (row.map csvField)

/-- Render CSV rows; `csv.writer`'s default line terminator is CRLF. -/
def renderCSV (rows : List (List String)) : String :=
  String.join (rows.map (fun r => renderRow r ++ "\r\n"))

/-- The rows the export writes: the header, then one row per message in
store order (remote_meeting.py lines 270-275). -/
def export_rows (messages : List StoredMsg) : List (List String) :=
  headerRow :: messages.map msgRow

/-- Embedding of the download-transcript block (remote_meeting.py lines
261-288): only when `messages` is non-empty, build the CSV in memory and
encode it as `utf-8-sig`, i.e. the UTF-8 bytes of the content prefixed with
a byte-order mark (U+FEFF encoded in UTF-8). -/
def transcript_csv_bytes (messages : List StoredMsg) : Option ByteArray :=
  if messages.isEmpty then none
  else some (String.toUTF8 ("\uFEFF" ++ renderCSV (export_rows messages)))

/-! ## Concrete values used by witnesses and counterexamples -/

/-- A drained event whose capture timestamp differs from every other field
value in play. -/
def staleEvent : TranslationEvent :=
  { original := "hello", translated := "hola", timestamp := "23:59:59" }

/-- A frame sitting in the audio queue at the moment `stop()` is called. -/
def lostFrame : RawFrame := { chunks := [[1, 2]], fails := false }

/-- A small frame batch: a good frame, a failing frame, another good one. -/
def sampleFrames : List RawFrame :=
  [{ chunks := [[1]], fails := false },
   { chunks := [], fails := true },
   { chunks := [[2], [3]], fails := false }]

/-- A one-message store for the export witness. -/
def sampleDb : List StoredMsg :=
  [{ room := "General", user := "User", original := "hello",
     translated := "hola", timestamp := "10:00:00", lang := "en-US" }]

/-! ## Helper lemmas -/

/-- Closed form of the worker loop: with `k` remaining true loop checks the
worker processes exactly the first `k` queued frames (writing their chunks
and logging their failures) and leaves the rest queued. -/
theorem process_audio_spec (k : Nat) (q : List RawFrame) :
    process_audio k q =
      (((q.take k).map RawFrame.chunks).flatten,
       ((q.take k).filter (fun f => f.fails)).length,
       q.drop k) := by
  induction k generalizing q with
  | zero => simp [process_audio]
  | succ k ih =>
    cases q with
    | nil => simp [process_audio, ih]
    | cons f rest =>
      simp only [process_audio, ih, List.take_succ_cons, List.map_cons,
        List.flatten, List.filter_cons, List.drop_succ_cons]
      cases hf : f.fails <;> simp [hf, Nat.add_comm]

/-- Closed form of the drain loop: every queued event becomes one
`add_message` call, in order, and the queue is left empty. -/
theorem drainLoop_spec (room username lang : String) (q : List TranslationEvent) :
    drainLoop room username lang q =
      (q.map (fun m => ⟨room, username, m.original, m.translated, lang⟩), []) := by
  induction q with
  | nil => rfl
  | cons m rest ih => simp [drainLoop, ih]

/-- Once the marker is set, further poll cycles leave the state unchanged. -/
theorem runCycles_marked (k : Nat) (n : Nat) :
    runCycles k { azure_thread_started := true, sessions_started := n } =
      { azure_thread_started := true, sessions_started := n } := by
  induction k with
  | zero => rfl
  | succ k ih => simpa [runCycles, startCycle] using ih

/-! ## Claim theorems -/

/-- Claim C1, counterexample. The claim states that each drained event is
persisted with all six fields including the event's `capturedAt` timestamp.
Draining the concrete event `staleEvent` (timestamp "23:59:59") issues an
`add_message` call carrying exactly five arguments — room, author, original,
translated, language — and the event's timestamp is not among them, so the
persisted timestamp cannot be the event's `capturedAt`. -/
theorem C1_counterexample :
    (drainLoop "General" "User" "en-US" [staleEvent]).1 =
      [⟨"General", "User", "hello", "hola", "en-US"⟩] ∧
    staleEvent.timestamp = "23:59:59" ∧
    ("23:59:59" : String) ∉ ["General", "User", "hello", "hola", "en-US"] := by
  decide

/-- Claim C1, amended: every TranslationEvent drained during a poll cycle is
persisted by one `add_message` call carrying the five fields (room, author,
original, translated, lang), in queue order; the event's timestamp is not
passed to the store, which assigns its own timestamp. -/
theorem C1_drain_persists_five_fields (room username lang : String)
    (q : List TranslationEvent) :
    (drainLoop room username lang q).1 =
      q.map (fun m =>
        { room := room, author := username, original := m.original,
          translated := m.translated, lang := lang }) := by
  simp [drainLoop_spec]

/-- Claim C2: running the orchestrator's per-cycle logic K ≥ 1 times against
the same still-active capture context starts exactly one recognition-session
thread, and in the starting cycle the marker is set before the background
session start is launched. -/
theorem C2_idempotent_session_start (K : Nat) (h : 1 ≤ K) :
    (runCycles K initState).sessions_started = 1 ∧
    (startCycle initState).2 = [OrchAction.setMarker, OrchAction.startSessionThread] := by
  cases K with
  | zero => exact absurd h (by decide)
  | succ k =>
    refine ⟨?_, rfl⟩
    show (runCycles k (startCycle initState).1).sessions_started = 1
    simp [startCycle, initState, runCycles_marked]

/-- Claim C2, witness at K = 3. -/
theorem C2_witness :
    (runCycles 3 initState).sessions_started = 1 ∧
    (startCycle initState).2 = [OrchAction.setMarker, OrchAction.startSessionThread] :=
  C2_idempotent_session_start 3 (by decide)

/-- Claim C3, counterexample. The claim states that when the capture context
is no longer active the orchestrator closes the RecognitionSession.  With
`playing = false` (and messages present) the end-of-cycle actions of
`render_remote_meeting` are exactly the download offer: no
close-recognition-session action is performed on any branch. -/
theorem C3_counterexample :
    render_tail false true = [OrchEndAction.offerDownload] ∧
    OrchEndAction.closeRecognitionSession ∉ render_tail false true ∧
    OrchEndAction.closeRecognitionSession ∉ render_tail false false := by
  decide

/-- Claim C3, amended: when the capture context is no longer active the
orchestrator merely stops scheduling further poll cycles (no sleep/rerun);
it never closes the RecognitionSession — the recognition thread only sleeps
forever — and the underlying stream resource is released (exactly one close)
only by `AzureAudioProcessor.stop`, not by the orchestrator. -/
theorem C3_no_close_on_stop (has_messages : Bool) (fuel : Nat) (s : ProcessorState) :
    OrchEndAction.rerun ∉ render_tail false has_messages ∧
    OrchEndAction.closeRecognitionSession ∉ render_tail false has_messages ∧
    OrchEndAction.closeRecognitionSession ∉ recognitionThreadBody fuel ∧
    OrchEndAction.closeStream ∉ recognitionThreadBody fuel ∧
    (AzureAudioProcessor.stop s).2.count OrchEndAction.closeStream = 1 ∧
    (AzureAudioProcessor.stop s).1.is_running = false := by
  refine ⟨?_, ?_, ?_, ?_, rfl, rfl⟩ <;>
    cases has_messages <;>
      simp [render_tail, recognitionThreadBody, List.mem_replicate]

/-- Claim C4, counterexample. The claim states that every frame enqueued at
the moment of the `stop()` call is still drained before the worker exits.
If `stop()` is observed at the worker's next loop-guard check (zero further
true checks) while `lostFrame` is queued, the worker exits with `lostFrame`
still in the queue: nothing was written and the frame was not drained. -/
theorem C4_counterexample :
    (process_audio 0 [lostFrame]).2.2 = [lostFrame] ∧
    (process_audio 0 [lostFrame]).1 = [] ∧
    [lostFrame] ≠ ([] : List RawFrame) := by
  decide

/-- Claim C4, amended: after `stop()` the worker exits at its next check of
the loop guard; only the frames dequeued during the remaining `k` true
checks are processed, and every frame still queued at that point (`q.drop
k`) is left undrained. -/
theorem C4_stop_leaves_queue (k : Nat) (q : List RawFrame) :
    (process_audio k q).2.2 = q.drop k ∧
    (process_audio k q).1 = ((q.take k).map RawFrame.chunks).flatten := by
  simp [process_audio_spec]

/-- Claim C5: a canceled-event with reason Error enqueues exactly one
TranslationEvent on the same result queue used by successful events, whose
original text is "ERROR: " followed by the error details and whose
translated text is "Recognition failed. Check Azure credentials.". -/
theorem C5_error_event (details now : String) (q : List TranslationEvent) :
    canceled_callback CancellationReason.Error details now q =
      q ++ [{ original := "ERROR: " ++ details,
              translated := "Recognition failed. Check Azure credentials.",
              timestamp := now }] ∧
    (canceled_callback CancellationReason.Error details now q).length = q.length + 1 := by
  simp [canceled_callback]

/-- Claim C6: a recognized-event (reason TranslatedSpeech) is forwarded to
the result queue iff both the original text and the target-language
translation (default "" when missing) are non-empty; with an empty original
or empty/missing translation the queue is unchanged. -/
theorem C6_event_filtering (text target_lang now : String)
    (translations : List (String × String)) (q : List TranslationEvent) :
    result_callback ResultReason.TranslatedSpeech text translations target_lang now q =
      (if text ≠ "" ∧ lookupTranslation translations target_lang ≠ ""
       then q ++ [{ original := text,
                    translated := lookupTranslation translations target_lang,
                    timestamp := now }]
       else q) ∧
    ((result_callback ResultReason.TranslatedSpeech text translations target_lang now q).length
        = q.length + 1
      ↔ (text ≠ "" ∧ lookupTranslation translations target_lang ≠ "")) ∧
    ((result_callback ResultReason.TranslatedSpeech text translations target_lang now q).length
        = q.length
      ↔ (text = "" ∨ lookupTranslation translations target_lang = "")) := by
  by_cases h : text ≠ "" ∧ lookupTranslation translations target_lang ≠ ""
  · exact ⟨by simp [result_callback, h], by simp [result_callback, h],
      by simp [result_callback, h]⟩
  · refine ⟨by simp [result_callback, h], by simp [result_callback, h], ?_⟩
    simp [result_callback, h]
    tauto

/-- Claim C7: with enough remaining loop checks to reach every queued frame,
the worker drains the whole queue; each failing frame is logged (counted)
and dropped while every other frame's chunks are still written, and the loop
exits only because of the stop flag, never because of a per-frame failure. -/
theorem C7_fail_soft_per_frame (k : Nat) (q : List RawFrame) (h : q.length ≤ k) :
    (process_audio k q).2.2 = [] ∧
    (process_audio k q).1 = (q.map RawFrame.chunks).flatten ∧
    (process_audio k q).2.1 = (q.filter (fun f => f.fails)).length := by
  rw [process_audio_spec]
  refine ⟨?_, ?_, ?_⟩ <;> simp [List.take_of_length_le h, List.drop_eq_nil_of_le h]

/-- Claim C7, witness: three frames, the middle one failing, with fuel 5. -/
theorem C7_witness :
    sampleFrames.length ≤ 5 ∧
    ((process_audio 5 sampleFrames).2.2 = [] ∧
     (process_audio 5 sampleFrames).1 = (sampleFrames.map RawFrame.chunks).flatten ∧
     (process_audio 5 sampleFrames).2.1 = (sampleFrames.filter (fun f => f.fails)).length) :=
  ⟨by decide, C7_fail_soft_per_frame 5 sampleFrames (by decide)⟩

/-- Claim C8: the poll-cycle drain loop runs until the result queue is
empty, so no event present at the start of the drain remains afterwards, and
the drained events are appended (as `add_message` calls) in their emission
order. -/
theorem C8_drain_completeness (room username lang : String) (q : List TranslationEvent) :
    (drainLoop room username lang q).2 = [] ∧
    (drainLoop room username lang q).1 =
      q.map (fun m => AddMessageArgs.mk room username m.original m.translated lang) := by
  simp [drainLoop_spec]

/-- Claim C9: for a room whose message list is non-empty, the export emits
the header plus exactly one row per persisted message, in insertion order,
with columns (user, original, translated, timestamp, language), and the
produced bytes are the UTF-8 encoding of the (BOM-prefixed) CSV content. -/
theorem C9_export_rows (room : String) (db : List StoredMsg)
    (h : get_messages room db ≠ []) :
    (export_rows (get_messages room db)).length = (get_messages room db).length + 1 ∧
    (export_rows (get_messages room db)).drop 1 = (get_messages room db).map msgRow ∧
    transcript_csv_bytes (get_messages room db) =
      some (String.toUTF8 ("\uFEFF" ++ renderCSV (export_rows (get_messages room db)))) := by
  refine ⟨by simp [export_rows], by simp [export_rows], ?_⟩
  simp [transcript_csv_bytes, List.isEmpty_iff, h]

/-- Claim C9, witness on a one-message store. -/
theorem C9_witness :
    get_messages "General" sampleDb ≠ [] ∧
    ((export_rows (get_messages "General" sampleDb)).length
        = (get_messages "General" sampleDb).length + 1 ∧
     (export_rows (get_messages "General" sampleDb)).drop 1
        = (get_messages "General" sampleDb).map msgRow ∧
     transcript_csv_bytes (get_messages "General" sampleDb) =
       some (String.toUTF8
         ("\uFEFF" ++ renderCSV (export_rows (get_messages "General" sampleDb))))) :=
  ⟨by decide, C9_export_rows "General" sampleDb (by decide)⟩

/-- Claim C10: if constructing or starting the recognition session raises an
exception with message e, the handler enqueues exactly one event on the same
result queue, with original text "EXCEPTION: " followed by e and translated
text "Azure connection failed. Check credentials." — a shape distinct from
the canceled-with-error event (different marker and different translated
text). -/
theorem C10_exception_event (e now : String) (q : List TranslationEvent) :
    start_azure_recognition (Except.error e) now q =
      q ++ [{ original := "EXCEPTION: " ++ e,
              translated := "Azure connection failed. Check credentials.",
              timestamp := now }] ∧
    (start_azure_recognition (Except.error e) now q).length = q.length + 1 ∧
    ("Azure connection failed. Check credentials." : String) ≠
      "Recognition failed. Check Azure credentials." := by
  refine ⟨rfl, by simp [start_azure_recognition], by decide⟩
